import Mathlib

/-!
Verification development for the rad-collision repository
(src/collision_detection.py).

The embedding below follows the Python source closely:

* `Mat4` mirrors the 4x4 `TransformationMatrix` dictionaries
  (`M11` .. `M44`) handed to `TransformROI3D`.
* `headDiffMatrix` is the differential transform built for every active
  treatment-head part in `transform_models` (lines 866-881).
* The scissor-lift inverse kinematics (lines 905-948) is `scissorSolve`.
* `State` carries the module-level globals read by `transform_models`
  (current and old pose, orientation constants, part lists, the collision
  pair encoding `coltag`), and `transformEmissions` / `dispatchedPairs` /
  `rowActions` model which `TransformROI3D` calls and collision threads a
  single invocation of `transform_models` produces.
* `transformCheck` models the input sanity check at the top of
  `TuneModelsForm.transform` (lines 698-806).
* `detectVerdict` models the verdict computation of `detect_collision`
  (lines 1095-1105).

Real-valued comparisons from the Python code (`abs(x) > 0` guards and so
on) are kept verbatim; classical decidability is used for the `if`s on
real propositions.
-/

open Real

open scoped Classical

namespace RadCollision

/-- A point in DICOM room coordinates, as the `iso.x`, `iso.y`, `iso.z`
attributes used by the script. -/
@[ext]
structure Vec3 where
  x : ℝ
  y : ℝ
  z : ℝ

/-- A 4x4 affine matrix, mirroring the `TransformationMatrix` dictionary
`{'M11': _, ..., 'M44': _}` passed to RayStation's `TransformROI3D`. -/
@[ext]
structure Mat4 where
  m11 : ℝ
  m12 : ℝ
  m13 : ℝ
  m14 : ℝ
  m21 : ℝ
  m22 : ℝ
  m23 : ℝ
  m24 : ℝ
  m31 : ℝ
  m32 : ℝ
  m33 : ℝ
  m34 : ℝ
  m41 : ℝ
  m42 : ℝ
  m43 : ℝ
  m44 : ℝ

/-- Matrix product of two 4x4 matrices (row times column). -/
def matMul (A B : Mat4) : Mat4 where
  m11 := A.m11*B.m11 + A.m12*B.m21 + A.m13*B.m31 + A.m14*B.m41
  m12 := A.m11*B.m12 + A.m12*B.m22 + A.m13*B.m32 + A.m14*B.m42
  m13 := A.m11*B.m13 + A.m12*B.m23 + A.m13*B.m33 + A.m14*B.m43
  m14 := A.m11*B.m14 + A.m12*B.m24 + A.m13*B.m34 + A.m14*B.m44
  m21 := A.m21*B.m11 + A.m22*B.m21 + A.m23*B.m31 + A.m24*B.m41
  m22 := A.m21*B.m12 + A.m22*B.m22 + A.m23*B.m32 + A.m24*B.m42
  m23 := A.m21*B.m13 + A.m22*B.m23 + A.m23*B.m33 + A.m24*B.m43
  m24 := A.m21*B.m14 + A.m22*B.m24 + A.m23*B.m34 + A.m24*B.m44
  m31 := A.m31*B.m11 + A.m32*B.m21 + A.m33*B.m31 + A.m34*B.m41
  m32 := A.m31*B.m12 + A.m32*B.m22 + A.m33*B.m32 + A.m34*B.m42
  m33 := A.m31*B.m13 + A.m32*B.m23 + A.m33*B.m33 + A.m34*B.m43
  m34 := A.m31*B.m14 + A.m32*B.m24 + A.m33*B.m34 + A.m34*B.m44
  m41 := A.m41*B.m11 + A.m42*B.m21 + A.m43*B.m31 + A.m44*B.m41
  m42 := A.m41*B.m12 + A.m42*B.m22 + A.m43*B.m32 + A.m44*B.m42
  m43 := A.m41*B.m13 + A.m42*B.m23 + A.m43*B.m33 + A.m44*B.m43
  m44 := A.m41*B.m14 + A.m42*B.m24 + A.m43*B.m34 + A.m44*B.m44

/-- Action of an affine 4x4 matrix on a 3D point (homogeneous coordinate 1),
which is how `TransformROI3D` moves every vertex of an ROI mesh. -/
def applyMat (M : Mat4) (p : Vec3) : Vec3 where
  x := M.m11*p.x + M.m12*p.y + M.m13*p.z + M.m14
  y := M.m21*p.x + M.m22*p.y + M.m23*p.z + M.m24
  z := M.m31*p.x + M.m32*p.y + M.m33*p.z + M.m34

/-- The identity 4x4 matrix. -/
def idMat4 : Mat4 where
  m11 := 1
  m12 := 0
  m13 := 0
  m14 := 0
  m21 := 0
  m22 := 1
  m23 := 0
  m24 := 0
  m31 := 0
  m32 := 0
  m33 := 1
  m34 := 0
  m41 := 0
  m42 := 0
  m43 := 0
  m44 := 1

/-- Translation matrix `T(v)` (script header, lines 103/106). -/
def Tmat (v : Vec3) : Mat4 where
  m11 := 1
  m12 := 0
  m13 := 0
  m14 := v.x
  m21 := 0
  m22 := 1
  m23 := 0
  m24 := v.y
  m31 := 0
  m32 := 0
  m33 := 1
  m34 := v.z
  m41 := 0
  m42 := 0
  m43 := 0
  m44 := 1

/-- Componentwise negation of a point. -/
def negVec (v : Vec3) : Vec3 where
  x := -v.x
  y := -v.y
  z := -v.z

/-- Rotation about the y axis with the script's sign convention
`R_y[row=1,column=3] = -sin(b)` (script header, line 47). -/
noncomputable def RyM (t : ℝ) : Mat4 where
  m11 := cos t
  m12 := 0
  m13 := -sin t
  m14 := 0
  m21 := 0
  m22 := 1
  m23 := 0
  m24 := 0
  m31 := sin t
  m32 := 0
  m33 := cos t
  m34 := 0
  m41 := 0
  m42 := 0
  m43 := 0
  m44 := 1

/-- Rotation about the z axis, classical convention
`R_z[row=1,column=2] = -sin(a)` (script header, line 46). -/
noncomputable def RzM (t : ℝ) : Mat4 where
  m11 := cos t
  m12 := -sin t
  m13 := 0
  m14 := 0
  m21 := sin t
  m22 := cos t
  m23 := 0
  m24 := 0
  m31 := 0
  m32 := 0
  m33 := 1
  m34 := 0
  m41 := 0
  m42 := 0
  m43 := 0
  m44 := 1

/-- The gantry differential rotation angle, line 874 of the script:
`d = gs*(gangle - oldgangle)  # g0 cancels`. -/
def gantryD (gs oldg g : ℝ) : ℝ := gs * (g - oldg)

/-- The 4x4 differential transform built for a treatment-head part in
`transform_models` (lines 871-880), entry for entry.  Arguments: isocenter
`iso`, orientation constants `cs`, `c0`, `gs`, old and new couch angle
`oldc`/`c`, old and new gantry angle `oldg`/`g`, and the extraction shift
`ey` (which the code sets to `gs*(se - oldse)` for retractable parts and
to `0` otherwise). -/
noncomputable def headDiffMatrix (iso : Vec3) (cs c0 gs oldc c oldg g ey : ℝ) : Mat4 :=
  let b := -cs*(oldc + c0)
  let b2 := cs*(c + c0)
  let a2 := gs*g
  let d := gantryD gs oldg g
  { m11 := cos d * cos b * cos b2 - sin b * sin b2
    m12 := -sin d * cos b2
    m13 := -cos d * sin b * cos b2 - cos b * sin b2
    m14 := iso.x - iso.x*(cos d * cos b * cos b2 - sin b * sin b2)
             + iso.y*sin d * cos b2
             + iso.z*(cos d * sin b * cos b2 + cos b * sin b2)
             + ey * sin a2 * cos b2
    m21 := sin d * cos b
    m22 := cos d
    m23 := -sin d * sin b
    m24 := iso.y - iso.x * sin d * cos b - iso.y * cos d + iso.z * sin d * sin b
             - ey * cos a2
    m31 := cos d * cos b * sin b2 + sin b * cos b2
    m32 := -sin d * sin b2
    m33 := -cos d * sin b * sin b2 + cos b * cos b2
    m34 := iso.z - iso.x*(cos d * cos b * sin b2 + sin b * cos b2)
             + iso.y*sin d * sin b2
             + iso.z*(cos d * sin b * sin b2 - cos b * cos b2)
             + ey * sin a2 * sin b2
    m41 := 0
    m42 := 0
    m43 := 0
    m44 := 1 }

/-- Pure-translation transform used for couch bulk parts (lines 898-902). -/
def transMat (dx dy dz : ℝ) : Mat4 where
  m11 := 1
  m12 := 0
  m13 := 0
  m14 := dx
  m21 := 0
  m22 := 1
  m23 := 0
  m24 := dy
  m31 := 0
  m32 := 0
  m33 := 1
  m34 := dz
  m41 := 0
  m42 := 0
  m43 := 0
  m44 := 1

/-! ### Scissor-lift inverse kinematics (lines 905-948) -/

/-- `bs = 170  # cm Distance bottom support pedestal to isocenter`. -/
def pedestalDist : ℝ := 170

/-- `lb = 120  # cm Length of bottom arm`. -/
def lbot : ℝ := 120

/-- `lt = 100  # cm Length of top arm`. -/
def ltop : ℝ := 100

/-- `rholim = lt + lb`. -/
def rholim : ℝ := ltop + lbot

/-- Interior angle at the bottom anchor,
`alpha = acos((b*b+c*c-a*a)/2/b/c)` with `a = lt`, `b = lb`, `c = rho`. -/
noncomputable def scissorAlpha (rho : ℝ) : ℝ :=
  arccos ((lbot*lbot + rho*rho - ltop*ltop)/2/lbot/rho)

/-- Interior angle at the top anchor,
`beta = acos((a*a+c*c-b*b)/2/c/a)` with `a = lt`, `b = lb`, `c = rho`. -/
noncomputable def scissorBeta (rho : ℝ) : ℝ :=
  arccos ((ltop*ltop + rho*rho - lbot*lbot)/2/rho/ltop)

/-- Python's `math.atan2(y, x)`: the argument of the point `(x, y)`. -/
noncomputable def atan2 (y x : ℝ) : ℝ := Complex.arg ⟨x, y⟩

/-- The base-arm and top-arm angles `(bangle, tangle)` computed by the
scissor-robot branch of `transform_models` (lines 925-948) from the couch
angle and the anchor-point difference `(xd, zd)`:
reachability test `rho > rholim` with parking fallback, the SSS triangle
solution otherwise, and the elbow `flip` substitution. -/
noncomputable def scissorSolve (cangle xd zd : ℝ) (flip : Bool) : ℝ × ℝ :=
  let rho := Real.sqrt (xd*xd + zd*zd)
  if rho > rholim then
    (cangle + π, cangle)
  else
    let alpha := scissorAlpha rho
    let beta := scissorBeta rho
    let delta := atan2 xd zd
    let bangle := delta + alpha
    let tangle := -(beta - delta)
    if flip then (bangle - 2*alpha, tangle + 2*beta) else (bangle, tangle)

/-! ### Module state and the emissions of one `transform_models` call -/

/-- The movement-relevant attributes of the Python `Part` class
(lines 129-155); file name and color are irrelevant to the core. -/
structure PartM where
  name : String
  active : Bool
  moveX : Bool
  moveY : Bool
  moveZ : Bool
  scissor : Bool
  retractable : Bool
deriving DecidableEq

/-- One row of the collision-pair encoding `coltag`: the two selected ROI
names and the checkbox state, i.e. the `roia + "\t" + roib + "\t" +
str(int(checked)) + "\n"` record built in `TuneModelsForm.transform`
(lines 800-803). -/
structure ColRowM where
  roia : String
  roib : String
  enabled : Bool
deriving DecidableEq

/-- The module-level globals read by `transform_models`: current and old
pose (`gangle`, `cangle`, `cx`, `cy`, `cz`, `se` in radians/cm as the code
stores them), the stored old scissor arm angles, the `flip` toggle, the
isocenter, orientation constants, the couch recentering offsets
`dx0`/`dz0`, the part catalogs, the scissor part-name list `lsci`, the
collision pair encoding and the ROI name list, and `maxColThreads`. -/
structure State where
  gangle : ℝ
  oldgangle : ℝ
  cangle : ℝ
  oldcangle : ℝ
  cx : ℝ
  oldcx : ℝ
  cy : ℝ
  oldcy : ℝ
  cz : ℝ
  oldcz : ℝ
  se : ℝ
  oldse : ℝ
  oldbangle : ℝ
  oldtangle : ℝ
  flip : Bool
  iso : Vec3
  gs : ℝ
  cs : ℝ
  c0 : ℝ
  dx0 : ℝ
  dz0 : ℝ
  linacParts : List PartM
  couchParts : List PartM
  lsci : List String
  coltag : List ColRowM
  oldcoltag : List ColRowM
  roiNames : List String
  maxColThreads : ℕ

/-- Guard of the treatment-head block (line 867):
`abs(cangle - oldcangle) > 0 or abs(gangle - oldgangle) > 0 or
abs(se - oldse) > 0`. -/
def headGuard (st : State) : Prop :=
  |st.cangle - st.oldcangle| > 0 ∨ |st.gangle - st.oldgangle| > 0 ∨
    |st.se - st.oldse| > 0

/-- The `TransformROI3D` calls issued by the treatment-head block
(lines 866-881): one differential matrix per active linac part, with the
extraction term only for retractable parts. -/
noncomputable def headEmissions (st : State) : List (String × Mat4) :=
  if headGuard st then
    (st.linacParts.filter (fun p => p.active)).map (fun p =>
      (p.name, headDiffMatrix st.iso st.cs st.c0 st.gs
        st.oldcangle st.cangle st.oldgangle st.gangle
        (if p.retractable then st.gs*(st.se - st.oldse) else 0)))
  else []

/-- Guard of the couch block (line 883).  The second disjunct reflects the
code's `abs(cy - oldcy)` written without `> 0`, which Python treats as
truthy exactly when it is nonzero. -/
def couchGuard (st : State) : Prop :=
  |st.cx - st.oldcx| > 0 ∨ |st.cy - st.oldcy| ≠ 0 ∨ |st.cz - st.oldcz| > 0 ∨
    |st.cangle - st.oldcangle| > 0

/-- The translation deltas for a couch part, masked by its movement flags
(lines 887-895). -/
def couchDelta (st : State) (p : PartM) : ℝ × ℝ × ℝ :=
  (if p.moveX then st.cx - st.oldcx else 0,
   if p.moveY then st.cy - st.oldcy else 0,
   if p.moveZ then st.cz - st.oldcz else 0)

/-- The `TransformROI3D` calls issued by the couch block (lines 882-903):
a pure translation for every active non-scissor couch part whose masked
delta is nonzero. -/
noncomputable def couchEmissions (st : State) : List (String × Mat4) :=
  if couchGuard st then
    (st.couchParts.filter (fun p => p.active)).filterMap (fun p =>
      let dx := (couchDelta st p).1
      let dy := (couchDelta st p).2.1
      let dz := (couchDelta st p).2.2
      if ¬p.scissor ∧ (|dx| > 0 ∨ |dy| > 0 ∨ |dz| > 0) then
        some (p.name, transMat dx dy dz)
      else none)
  else []

/-- Anchor point of the bottom arm in the pedestal, x coordinate
(line 914): `bx = iso.x - bs*sin(cs*cangle)`. -/
noncomputable def anchorBx (st : State) (c : ℝ) : ℝ :=
  st.iso.x - pedestalDist * sin (st.cs * c)

/-- Anchor point of the bottom arm in the pedestal, z coordinate
(line 915): `bz = iso.z + bs*cos(cs*cangle)`. -/
noncomputable def anchorBz (st : State) (c : ℝ) : ℝ :=
  st.iso.z + pedestalDist * cos (st.cs * c)

/-- Anchor-point difference `xd = bx - tx` with `tx = iso.x + dx0 + cx`
(lines 919-922). -/
noncomputable def anchorXd (st : State) : ℝ :=
  anchorBx st st.cangle - (st.iso.x + st.dx0 + st.cx)

/-- Anchor-point difference `zd = bz - tz` with `tz = iso.z + dz0 + cz`
(lines 920-923). -/
noncomputable def anchorZd (st : State) : ℝ :=
  anchorBz st st.cangle - (st.iso.z + st.dz0 + st.cz)

/-- The freshly computed base-arm angle `bangle` of this call. -/
noncomputable def scissorBangle (st : State) : ℝ :=
  (scissorSolve st.cangle (anchorXd st) (anchorZd st) st.flip).1

/-- The freshly computed top-arm angle `tangle` of this call. -/
noncomputable def scissorTangle (st : State) : ℝ :=
  (scissorSolve st.cangle (anchorXd st) (anchorZd st) st.flip).2

/-- Guard of the scissor emission loop (line 950):
`abs(bangle - oldbangle) > 0 or abs(tangle - oldtangle) > 0 or
abs(cangle - oldcangle) > 0`. -/
def scissorGuard (st : State) : Prop :=
  |scissorBangle st - st.oldbangle| > 0 ∨ |scissorTangle st - st.oldtangle| > 0 ∨
    |st.cangle - st.oldcangle| > 0

/-- The rotation-about-an-anchor matrix emitted for scissor segment `i`
(bottom arm, top arm, pedestal) with its name `roi` (lines 951-987). -/
noncomputable def scissorMat (st : State) (i : ℕ) (roi : String) : Mat4 :=
  let part := (st.couchParts.find? (fun p => p.name = roi)).getD
    ⟨roi, false, true, true, true, false, false⟩
  let d := if i = 0 then st.cs * (scissorBangle st - st.oldbangle)
    else if i = 1 then st.cs * (scissorTangle st - st.oldtangle)
    else st.cs * (st.cangle - st.oldcangle)
  let dy := if part.moveY then st.cy - st.oldcy else 0
  let dx := if i = 0 then
      -pedestalDist * (sin (st.cs*st.cangle) - sin (st.cs*st.oldcangle))
    else if part.moveX then st.cx - st.oldcx else 0
  let dz := if i = 0 then
      pedestalDist * (cos (st.cs*st.cangle) - cos (st.cs*st.oldcangle))
    else if part.moveZ then st.cz - st.oldcz else 0
  let rtpx := if i = 0 then anchorBx st st.oldcangle
    else if i = 1 then st.iso.x + st.dx0 + st.oldcx
    else st.iso.x
  let rtpz := if i = 0 then anchorBz st st.oldcangle
    else if i = 1 then st.iso.z + st.dz0 + st.oldcz
    else st.iso.z
  { m11 := cos d
    m12 := 0
    m13 := -sin d
    m14 := rtpx - rtpx * cos d + rtpz * sin d + dx
    m21 := 0
    m22 := 1
    m23 := 0
    m24 := dy
    m31 := sin d
    m32 := 0
    m33 := cos d
    m34 := rtpz - rtpx * sin d - rtpz * cos d + dz
    m41 := 0
    m42 := 0
    m43 := 0
    m44 := 1 }

/-- The `TransformROI3D` calls issued by the scissor-robot block
(lines 905-988): when a scissor robot is configured (`len(lsci) >= 2`) and
an arm or couch angle changed, one rotation per scissor segment. -/
noncomputable def scissorEmissions (st : State) : List (String × Mat4) :=
  if 2 ≤ st.lsci.length then
    if scissorGuard st then
      st.lsci.enum.map (fun e => (e.2, scissorMat st e.1 e.2))
    else []
  else []

/-- All mesh transforms emitted by one call of `transform_models`, in
program order. -/
noncomputable def transformEmissions (st : State) : List (String × Mat4) :=
  headEmissions st ++ couchEmissions st ++ scissorEmissions st

/-- The names of the parts whose meshes were moved in this call. -/
noncomputable def movedParts (st : State) : List String :=
  (transformEmissions st).map (fun e => e.1)

/-! ### Collision re-dispatch (lines 990-1020) -/

/-- Character count contributed by one row to the `coltag` string:
`roia + "\t" + roib + "\t" + ("0"|"1") + "\n"`. -/
def rowLen (r : ColRowM) : ℕ := r.roia.length + r.roib.length + 4

/-- `len(coltag)` for the encoded pair list. -/
def coltagLen (l : List ColRowM) : ℕ := (l.map rowLen).sum

/-- The `moved` flag at line 993: set by every emitted mesh transform, and
by `coltag != oldcoltag` (line 990). -/
noncomputable def movedProp (st : State) : Prop :=
  transformEmissions st ≠ [] ∨ st.coltag ≠ st.oldcoltag

/-- The nothing-selected test at line 1004:
`len(coltag) == maxColThreads * 6`. -/
def sentinelEmpty (st : State) : Prop :=
  coltagLen st.coltag = st.maxColThreads * 6

/-- The dispatch condition for one row (line 1015):
`roia in roi_lst and roib in roi_lst and int(enable) != 0`. -/
def validRow (names : List String) (r : ColRowM) : Bool :=
  decide (r.roia ∈ names) && decide (r.roib ∈ names) && r.enabled

/-- The collision evaluations started by this call: the enumerated rows
that pass the dispatch condition, provided something moved and the
encoding is not taken for the all-empty sentinel (lines 993-1017). -/
noncomputable def dispatchedPairs (st : State) : List (ℕ × ColRowM) :=
  if movedProp st then
    if sentinelEmpty st then []
    else st.coltag.enum.filter (fun e => validRow st.roiNames e.2)
  else []

/-- What happens to one row's report labels in this call. -/
inductive RowAction where
  /-- a `detect_collision` thread is started for this row -/
  | dispatch : RowAction
  /-- the row's verdict and DSC labels are set to the empty string -/
  | clear : RowAction
  /-- the row's labels are left as they were -/
  | keep : RowAction
deriving DecidableEq

/-- Per-row outcome of the dispatch section (lines 993-1020): with `moved`
set, either every row is cleared (sentinel branch, line 1004) or each row
is dispatched or cleared by the validity test; with `moved` unset nothing
is touched. -/
noncomputable def rowActions (st : State) : List RowAction :=
  if movedProp st then
    if sentinelEmpty st then st.coltag.map (fun _ => RowAction.clear)
    else st.coltag.map (fun r =>
      if validRow st.roiNames r then RowAction.dispatch else RowAction.clear)
  else st.coltag.map (fun _ => RowAction.keep)

/-! ### Input sanity check of `TuneModelsForm.transform` (lines 698-806) -/

/-- The six text-box inputs; `none` models an empty text box. -/
structure TextInput where
  b : Option ℝ
  c : Option ℝ
  x : Option ℝ
  y : Option ℝ
  z : Option ℝ
  e : Option ℝ

/-- The minimum check for one field: an empty box or a value below the
trackbar minimum is replaced by the minimum and flips `ok` to false
(lines 715-739). -/
noncomputable def clampLow (v : Option ℝ) (lo : ℝ) : ℝ × Bool :=
  match v with
  | none => (lo, false)
  | some x => if x < lo then (lo, false) else (x, true)

/-- The maximum check for one field: a value above the trackbar maximum is
replaced by the maximum and flips `ok` to false (lines 740-764). -/
noncomputable def clampHigh (x hi : ℝ) : ℝ × Bool :=
  if x > hi then (hi, false) else (x, true)

/-- Minimum check followed by maximum check for one field; `ok` stays true
only if neither fired. -/
noncomputable def clampField (v : Option ℝ) (lo hi : ℝ) : ℝ × Bool :=
  let low := clampLow v lo
  let high := clampHigh low.1 hi
  (high.1, low.2 && high.2)

/-- Result of the sanity check: the (possibly clamped) values written back
into the text boxes, and the `ok` flag deciding whether the transformation
is performed at all. -/
structure CheckResult where
  b : ℝ
  c : ℝ
  x : ℝ
  y : ℝ
  z : ℝ
  e : ℝ
  ok : Bool

/-- The sanity-check section of `TuneModelsForm.transform` (lines 713-764)
with the trackbar bounds set up in the form constructor: beam angle
[0, 360], couch angle [-90, 90], couch X [-100, 100], Y [-250, 250],
Z [-500, 500] and, when `extraction` is active, snout extraction
[0, 800]; without extraction the field is read as "0" and not checked. -/
noncomputable def transformCheck (extraction : Bool) (inp : TextInput) : CheckResult :=
  let fb := clampField inp.b 0 360
  let fc := clampField inp.c (-90) 90
  let fx := clampField inp.x (-100) 100
  let fy := clampField inp.y (-250) 250
  let fz := clampField inp.z (-500) 500
  let fe := if extraction then clampField inp.e 0 800 else (0, true)
  { b := fb.1, c := fc.1, x := fx.1, y := fy.1, z := fz.1, e := fe.1,
    ok := fb.2 && fc.2 && fx.2 && fy.2 && fz.2 && fe.2 }

/-- The pose handed on to `transform_models`: the code performs the
transformation only under `if ok:` (line 769), otherwise the call returns
with nothing applied. -/
noncomputable def appliedPose (extraction : Bool) (inp : TextInput) :
    Option (ℝ × ℝ × ℝ × ℝ × ℝ × ℝ) :=
  let r := transformCheck extraction inp
  if r.ok then some (r.b, r.c, r.x, r.y, r.z, r.e) else none

/-- A field value is present and inside the declared bounds. -/
def inRange (v : Option ℝ) (lo hi : ℝ) : Prop :=
  ∃ x, v = some x ∧ lo ≤ x ∧ x ≤ hi

/-! ### Collision verdict of `detect_collision` (lines 1095-1105) -/

/-- The safety test at line 1101:
`safe = (((result['DiceSimilarityCoefficient'] - abs(result['Precision']))
<= 0.0) or (result['DiceSimilarityCoefficient'] < 5e-5))`. -/
def detectSafe (dsc prec : ℝ) : Prop :=
  dsc - |prec| ≤ 0 ∨ dsc < 5/100000

/-- The verdict label written at line 1102:
`lres.Text = 'OK' if safe else '!COLL!'`. -/
noncomputable def detectVerdict (dsc prec : ℝ) : String :=
  if detectSafe dsc prec then "OK" else "!COLL!"

/-! ### Concrete scenarios used below -/

/-- A state in which only the gantry angle changed (0 to 1 rad), with one
active treatment-head part. -/
noncomputable def c1State : State where
  gangle := 1
  oldgangle := 0
  cangle := 0
  oldcangle := 0
  cx := 0
  oldcx := 0
  cy := 0
  oldcy := 0
  cz := 0
  oldcz := 0
  se := 0
  oldse := 0
  oldbangle := 0
  oldtangle := 0
  flip := false
  iso := ⟨1, 2, 3⟩
  gs := -1
  cs := -1
  c0 := 0
  dx0 := 0
  dz0 := 0
  linacParts := [⟨"Gantry", true, true, true, true, false, false⟩]
  couchParts := []
  lsci := []
  coltag := []
  oldcoltag := []
  roiNames := ["Gantry"]
  maxColThreads := 1

/-- A state whose new pose equals its old pose component-wise. -/
noncomputable def c2State : State where
  gangle := 0
  oldgangle := 0
  cangle := 0
  oldcangle := 0
  cx := 0
  oldcx := 0
  cy := 0
  oldcy := 0
  cz := 0
  oldcz := 0
  se := 0
  oldse := 0
  oldbangle := 0
  oldtangle := 0
  flip := false
  iso := ⟨0, 0, 0⟩
  gs := -1
  cs := -1
  c0 := 0
  dx0 := 0
  dz0 := 0
  linacParts := [⟨"Gantry", true, true, true, true, false, false⟩]
  couchParts := []
  lsci := []
  coltag := []
  oldcoltag := []
  roiNames := []
  maxColThreads := 1

/-- The concrete regression matrix of spec section 8: isocenter at the
origin, HFS orientation (`g0 = π`, `c0 = π`, `gs = -1`, `cs = -1`), old
pose `g = 0, c = 0`, new pose `g = 90 deg, c = 0`, no extraction change. -/
noncomputable def c6Matrix : Mat4 :=
  headDiffMatrix ⟨0, 0, 0⟩ (-1) π (-1) 0 0 0 (π/2) 0

/-- A transition in which only the treatment head moved (gantry 0 to
1 rad) while an enabled collision pair references two stationary couch
meshes, and the pair encoding is unchanged. -/
noncomputable def c7State : State where
  gangle := 1
  oldgangle := 0
  cangle := 0
  oldcangle := 0
  cx := 0
  oldcx := 0
  cy := 0
  oldcy := 0
  cz := 0
  oldcz := 0
  se := 0
  oldse := 0
  oldbangle := 0
  oldtangle := 0
  flip := false
  iso := ⟨0, 0, 0⟩
  gs := -1
  cs := -1
  c0 := 0
  dx0 := 0
  dz0 := 0
  linacParts := [⟨"Gantry", true, true, true, true, false, false⟩]
  couchParts := [⟨"Couch", true, true, true, true, false, false⟩]
  lsci := []
  coltag := [⟨"Couch", "Couch", true⟩]
  oldcoltag := [⟨"Couch", "Couch", true⟩]
  roiNames := ["Gantry", "Couch"]
  maxColThreads := 1

/-- A state with an enabled pair of single-character ROI names "A" and
"B", both present in the patient model, and a just-changed pair encoding:
its `coltag` string has length `1+1+4 = 6 = maxColThreads * 6`. -/
noncomputable def c9State : State where
  gangle := 0
  oldgangle := 0
  cangle := 0
  oldcangle := 0
  cx := 0
  oldcx := 0
  cy := 0
  oldcy := 0
  cz := 0
  oldcz := 0
  se := 0
  oldse := 0
  oldbangle := 0
  oldtangle := 0
  flip := false
  iso := ⟨0, 0, 0⟩
  gs := -1
  cs := -1
  c0 := 0
  dx0 := 0
  dz0 := 0
  linacParts := []
  couchParts := []
  lsci := []
  coltag := [⟨"A", "B", true⟩]
  oldcoltag := []
  roiNames := ["A", "B"]
  maxColThreads := 1

/-- Text-box input with the beam angle at 400 deg, above its 360 deg
bound, everything else at 0. -/
noncomputable def c8Input : TextInput where
  b := some 400
  c := some 0
  x := some 0
  y := some 0
  z := some 0
  e := some 0

/-! ### Frame-math lemmas -/

theorem matMul_assoc (A B C : Mat4) :
    matMul (matMul A B) C = matMul A (matMul B C) := by
  ext <;> simp [matMul] <;> ring

theorem matMul_id_left (A : Mat4) : matMul idMat4 A = A := by
  ext <;> simp [matMul, idMat4]

theorem matMul_id_right (A : Mat4) : matMul A idMat4 = A := by
  ext <;> simp [matMul, idMat4]

theorem RyM_mul (a b : ℝ) : matMul (RyM a) (RyM b) = RyM (a + b) := by
  ext <;> simp [matMul, RyM, Real.cos_add, Real.sin_add] <;> ring

theorem RzM_mul (a b : ℝ) : matMul (RzM a) (RzM b) = RzM (a + b) := by
  ext <;> simp [matMul, RzM, Real.cos_add, Real.sin_add] <;> ring

theorem RyM_zero : RyM 0 = idMat4 := by
  ext <;> simp [RyM, idMat4]

theorem RzM_zero : RzM 0 = idMat4 := by
  ext <;> simp [RzM, idMat4]

theorem RyM_mul_cancel (a b : ℝ) (X : Mat4) :
    matMul (RyM a) (matMul (RyM b) X) = matMul (RyM (a + b)) X := by
  rw [← matMul_assoc, RyM_mul]

theorem RzM_mul_cancel (a b : ℝ) (X : Mat4) :
    matMul (RzM a) (matMul (RzM b) X) = matMul (RzM (a + b)) X := by
  rw [← matMul_assoc, RzM_mul]

theorem Tmat_mul_neg (v : Vec3) : matMul (Tmat v) (Tmat (negVec v)) = idMat4 := by
  ext <;> simp [matMul, Tmat, negVec, idMat4]

theorem Tmat_neg_mul (v : Vec3) : matMul (Tmat (negVec v)) (Tmat v) = idMat4 := by
  ext <;> simp [matMul, Tmat, negVec, idMat4]

theorem Tmat_neg_mul_cancel (v : Vec3) (X : Mat4) :
    matMul (Tmat (negVec v)) (matMul (Tmat v) X) = X := by
  rw [← matMul_assoc, Tmat_neg_mul, matMul_id_left]

/-- For matrices whose last row is `(0 0 0 1)`, the affine action of a
product is the composition of the affine actions. -/
theorem applyMat_matMul (A B : Mat4) (p : Vec3) (h41 : B.m41 = 0)
    (h42 : B.m42 = 0) (h43 : B.m43 = 0) (h44 : B.m44 = 1) :
    applyMat (matMul A B) p = applyMat A (applyMat B p) := by
  ext <;> simp [applyMat, matMul, h41, h42, h43, h44] <;> ring

theorem applyMat_id (p : Vec3) : applyMat idMat4 p = p := by
  ext <;> simp [applyMat, idMat4]

set_option maxHeartbeats 1600000 in
/-- The emitted head matrix (without extraction) is exactly the
composition `T(iso) * R_y(b2) * R_z(d) * R_y(b) * T(-iso)` claimed in the
script's header derivation (lines 83-89). -/
theorem headDiffMatrix_factor (iso : Vec3) (cs c0 gs oldc c oldg g : ℝ) :
    headDiffMatrix iso cs c0 gs oldc c oldg g 0 =
      matMul (Tmat iso)
        (matMul (RyM (cs*(c + c0)))
          (matMul (RzM (gantryD gs oldg g))
            (matMul (RyM (-cs*(oldc + c0))) (Tmat (negVec iso))))) := by
  ext <;> simp [headDiffMatrix, matMul, Tmat, RyM, RzM, negVec] <;> ring

/-- The emitted head matrix (without extraction) sends the isocenter to
itself; this is a polynomial identity of the matrix entries
(lines 877-879) and needs no trigonometric facts. -/
theorem headDiffMatrix_fixes_iso (iso : Vec3) (cs c0 gs oldc c oldg g : ℝ) :
    applyMat (headDiffMatrix iso cs c0 gs oldc c oldg g 0) iso = iso := by
  ext <;> simp [headDiffMatrix, applyMat] <;> ring

/-! ### Claim theorems -/

/-- Claim C1: for every old pose and new pose that differ only in gantry
and/or couch angle (extraction unchanged, so `ey = 0`), every 4x4
differential transform emitted for a treatment-head part maps the
isocenter to itself exactly, for all angle pairs (in particular all pairs
in `[0, 2*pi)`). -/
theorem C1_iso_fixed_point (st : State) (hse : st.se = st.oldse) :
    ∀ e ∈ headEmissions st, applyMat e.2 st.iso = st.iso := by
  intro e he
  rw [headEmissions] at he
  by_cases hg : headGuard st
  · rw [if_pos hg] at he
    simp only [List.mem_map] at he
    obtain ⟨p, _, rfl⟩ := he
    rw [hse, sub_self, mul_zero, ite_self]
    exact headDiffMatrix_fixes_iso st.iso st.cs st.c0 st.gs
      st.oldcangle st.cangle st.oldgangle st.gangle
  · rw [if_neg hg] at he
    exact absurd he (List.not_mem_nil e)

/-- Witness for C1 at the concrete state `c1State`: the emitted transform
for the active "Gantry" part fixes the isocenter (1, 2, 3). -/
theorem C1_iso_fixed_point_witness :
    ("Gantry", headDiffMatrix ⟨1, 2, 3⟩ (-1) 0 (-1) 0 0 0 1 0) ∈
        headEmissions c1State ∧
      applyMat (headDiffMatrix ⟨1, 2, 3⟩ (-1) 0 (-1) 0 0 0 1 0)
        (⟨1, 2, 3⟩ : Vec3) = ⟨1, 2, 3⟩ := by
  have hg : headGuard c1State := by
    rw [headGuard]
    right; left
    show |(1 : ℝ) - 0| > 0
    norm_num
  have hm : ("Gantry", headDiffMatrix ⟨1, 2, 3⟩ (-1) 0 (-1) 0 0 0 1 0) ∈
      headEmissions c1State := by
    rw [headEmissions, if_pos hg]
    simp [c1State]
  exact ⟨hm, C1_iso_fixed_point c1State rfl _ hm⟩

/-- Claim C3: for every old pose P and new pose Q (angle changes only,
`ey = 0`), the head differential transform for P to Q composed with the
one for Q to P is the identity matrix, and every point returns to its
original position. -/
theorem C3_round_trip (iso : Vec3) (cs c0 gs cP gP cQ gQ : ℝ) :
    matMul (headDiffMatrix iso cs c0 gs cQ cP gQ gP 0)
        (headDiffMatrix iso cs c0 gs cP cQ gP gQ 0) = idMat4 ∧
      ∀ p : Vec3,
        applyMat (headDiffMatrix iso cs c0 gs cQ cP gQ gP 0)
          (applyMat (headDiffMatrix iso cs c0 gs cP cQ gP gQ 0) p) = p := by
  have hmul : matMul (headDiffMatrix iso cs c0 gs cQ cP gQ gP 0)
      (headDiffMatrix iso cs c0 gs cP cQ gP gQ 0) = idMat4 := by
    rw [headDiffMatrix_factor, headDiffMatrix_factor]
    simp only [matMul_assoc]
    rw [Tmat_neg_mul_cancel]
    rw [RyM_mul_cancel,
      show (-cs*(cQ + c0) + cs*(cQ + c0) : ℝ) = 0 from by ring,
      RyM_zero, matMul_id_left]
    rw [RzM_mul_cancel,
      show gantryD gs gQ gP + gantryD gs gP gQ = 0 from by
        rw [gantryD, gantryD]; ring,
      RzM_zero, matMul_id_left]
    rw [RyM_mul_cancel,
      show (cs*(cP + c0) + -cs*(cP + c0) : ℝ) = 0 from by ring,
      RyM_zero, matMul_id_left, Tmat_mul_neg]
  refine ⟨hmul, fun p => ?_⟩
  rw [← applyMat_matMul _ _ p rfl rfl rfl rfl, hmul, applyMat_id]

/-- Claim C10: a completed `detect_collision` evaluation reports
"!COLL!" exactly when the Dice similarity coefficient exceeds the
oracle's own |Precision| and is at least the 5e-5 floor; overlaps at or
below either threshold are reported "OK". -/
theorem C10_verdict_threshold (dsc prec : ℝ) :
    detectVerdict dsc prec = "!COLL!" ↔
      dsc - |prec| > 0 ∧ 5/100000 ≤ dsc := by
  rw [detectVerdict]
  by_cases h : detectSafe dsc prec
  · rw [if_pos h]
    constructor
    · intro hstr
      exact absurd hstr (by decide)
    · rintro ⟨h1, h2⟩
      rcases h with h3 | h3
      · linarith
      · linarith
  · rw [if_neg h]
    rw [detectSafe] at h
    push_neg at h
    exact ⟨fun _ => ⟨by linarith [h.1], h.2⟩, fun _ => rfl⟩

/-- Claim C2: when the new pose equals the old pose component-wise
(gantry angle, couch angle, couch X/Y/Z, extraction all unchanged) and
the stored old arm angles are the ones derived from that same pose (the
invariant the previous call established), `transform_models` emits no
transform to any part; equivalently, the head closed form evaluated at
old = new (so `d = 0` and `b2 = -b`) is the identity matrix. -/
theorem C2_noop_identity (st : State)
    (hg : st.gangle = st.oldgangle) (hc : st.cangle = st.oldcangle)
    (hx : st.cx = st.oldcx) (hy : st.cy = st.oldcy) (hz : st.cz = st.oldcz)
    (hs : st.se = st.oldse)
    (harm : 2 ≤ st.lsci.length →
      st.oldbangle = scissorBangle st ∧ st.oldtangle = scissorTangle st) :
    transformEmissions st = [] ∧
      headDiffMatrix st.iso st.cs st.c0 st.gs st.oldcangle st.oldcangle
        st.oldgangle st.oldgangle 0 = idMat4 := by
  constructor
  · have h1 : headEmissions st = [] := by
      rw [headEmissions, if_neg]
      rw [headGuard]
      simp [hg, hc, hs]
    have h2 : couchEmissions st = [] := by
      rw [couchEmissions, if_neg]
      rw [couchGuard]
      simp [hx, hy, hz, hc]
    have h3 : scissorEmissions st = [] := by
      by_cases hl : 2 ≤ st.lsci.length
      · obtain ⟨hb, ht⟩ := harm hl
        rw [scissorEmissions, if_pos hl, if_neg]
        rw [scissorGuard]
        simp [← hb, ← ht, hc]
      · rw [scissorEmissions, if_neg hl]
    rw [transformEmissions, h1, h2, h3]
    rfl
  · rw [headDiffMatrix_factor]
    rw [show gantryD st.gs st.oldgangle st.oldgangle = 0 from by
      simp [gantryD], RzM_zero, matMul_id_left]
    rw [RyM_mul_cancel,
      show (st.cs*(st.oldcangle + st.c0) + -st.cs*(st.oldcangle + st.c0) : ℝ)
        = 0 from by ring,
      RyM_zero, matMul_id_left, Tmat_mul_neg]

/-- Witness for C2 at the all-zero pose `c2State`: no transform is
emitted and the closed form is the identity. -/
theorem C2_noop_identity_witness :
    transformEmissions c2State = [] ∧
      headDiffMatrix c2State.iso c2State.cs c2State.c0 c2State.gs
        c2State.oldcangle c2State.oldcangle c2State.oldgangle
        c2State.oldgangle 0 = idMat4 :=
  C2_noop_identity c2State rfl rfl rfl rfl rfl rfl
    (fun h => by simp [c2State] at h)

/-- Claim C4: with bottom-arm length 120 and top-arm length 100, an
anchor distance of 220 is still treated as reachable and the SSS solution
degenerates to the straight line `alpha = beta = 0`, so both arm angles
equal the bearing `delta = atan2 xd zd`; an anchor distance of 221
triggers the fallback `bangle = cangle + pi`, `tangle = cangle`. -/
theorem C4_reachability_boundary (cangle xd zd xd2 zd2 : ℝ)
    (h220 : Real.sqrt (xd*xd + zd*zd) = 220)
    (h221 : Real.sqrt (xd2*xd2 + zd2*zd2) = 221) :
    scissorSolve cangle xd zd false = (atan2 xd zd, atan2 xd zd) ∧
      scissorSolve cangle xd2 zd2 false = (cangle + π, cangle) := by
  constructor
  · have ha : scissorAlpha 220 = 0 := by
      rw [scissorAlpha]
      norm_num [lbot, ltop]
    have hb : scissorBeta 220 = 0 := by
      rw [scissorBeta]
      norm_num [lbot, ltop]
    simp only [scissorSolve, h220]
    rw [if_neg (by norm_num [rholim, ltop, lbot])]
    simp [ha, hb]
  · simp only [scissorSolve, h221]
    rw [if_pos (by norm_num [rholim, ltop, lbot])]

/-- Witness for C4 with the anchors at horizontal distance 220 and 221
respectively. -/
theorem C4_reachability_boundary_witness :
    scissorSolve 0 220 0 false = (atan2 220 0, atan2 220 0) ∧
      scissorSolve 0 221 0 false = (0 + π, 0) := by
  have h220 : Real.sqrt ((220 : ℝ)*220 + 0*0) = 220 := by
    rw [show ((220 : ℝ)*220 + 0*0) = 220^2 from by norm_num]
    exact Real.sqrt_sq (by norm_num)
  have h221 : Real.sqrt ((221 : ℝ)*221 + 0*0) = 221 := by
    rw [show ((221 : ℝ)*221 + 0*0) = 221^2 from by norm_num]
    exact Real.sqrt_sq (by norm_num)
  exact C4_reachability_boundary 0 220 0 221 0 h220 h221

/-- Claim C5: for a fixed reachable configuration (`rho <= 220`),
toggling the elbow flip twice returns both arm angles to their original
values, and a single flip substitutes `alpha -> -alpha`, `beta -> -beta`
in the angle sums: flipped `bangle = delta - alpha` and flipped
`tangle = delta + beta`, against unflipped `bangle = delta + alpha`,
`tangle = delta - beta`. -/
theorem C5_flip_involution (cangle xd zd : ℝ) (f : Bool)
    (h : Real.sqrt (xd*xd + zd*zd) ≤ rholim) :
    scissorSolve cangle xd zd (!!f) = scissorSolve cangle xd zd f ∧
      scissorSolve cangle xd zd true =
        (atan2 xd zd - scissorAlpha (Real.sqrt (xd*xd + zd*zd)),
         atan2 xd zd + scissorBeta (Real.sqrt (xd*xd + zd*zd))) ∧
      scissorSolve cangle xd zd false =
        (atan2 xd zd + scissorAlpha (Real.sqrt (xd*xd + zd*zd)),
         atan2 xd zd - scissorBeta (Real.sqrt (xd*xd + zd*zd))) := by
  refine ⟨by rw [Bool.not_not], ?_, ?_⟩
  · simp only [scissorSolve]
    rw [if_neg (not_lt.2 h)]
    simp only [if_pos, Prod.mk.injEq]
    constructor <;> ring
  · simp only [scissorSolve]
    rw [if_neg (not_lt.2 h)]
    simp only [Bool.false_eq_true, if_false, Prod.mk.injEq]
    exact ⟨trivial, by ring⟩

/-- Witness for C5 at the degenerate reachable configuration `xd = zd = 0`
(anchor distance 0). -/
theorem C5_flip_involution_witness :
    scissorSolve 0 0 0 (!!true) = scissorSolve 0 0 0 true ∧
      scissorSolve 0 0 0 true =
        (atan2 0 0 - scissorAlpha (Real.sqrt (0*0 + 0*0)),
         atan2 0 0 + scissorBeta (Real.sqrt (0*0 + 0*0))) ∧
      scissorSolve 0 0 0 false =
        (atan2 0 0 + scissorAlpha (Real.sqrt (0*0 + 0*0)),
         atan2 0 0 - scissorBeta (Real.sqrt (0*0 + 0*0))) :=
  C5_flip_involution 0 0 0 true
    (by rw [show ((0 : ℝ)*0 + 0*0) = 0 from by norm_num, Real.sqrt_zero]
        norm_num [rholim, ltop, lbot])

/-- Evaluation of the concrete HFS regression matrix on the head point
(100, 0, 0): the gantry rotation carries it to (0, 100, 0). -/
theorem c6Matrix_apply :
    applyMat c6Matrix ⟨100, 0, 0⟩ = (⟨0, 100, 0⟩ : Vec3) := by
  ext <;>
    simp [c6Matrix, headDiffMatrix, applyMat, gantryD, Real.cos_pi,
      Real.sin_pi, Real.cos_pi_div_two, Real.sin_pi_div_two]

/-- Counterexample to claim C6 as stated: the emitted matrix for the
concrete HFS scenario does not map (100, 0, 0) to (0, 0, 100), nor to its
negation (0, 0, -100). -/
theorem C6_regression_counterexample :
    applyMat c6Matrix ⟨100, 0, 0⟩ ≠ (⟨0, 0, 100⟩ : Vec3) ∧
      applyMat c6Matrix ⟨100, 0, 0⟩ ≠ (⟨0, 0, -100⟩ : Vec3) := by
  rw [c6Matrix_apply]
  constructor <;> { intro h; rw [Vec3.mk.injEq] at h; norm_num at h }

/-- Claim C6, amended: in the concrete scenario (isocenter (0,0,0), HFS
`g0 = pi, c0 = pi, gs = -1, cs = -1`, old pose `g = 0, c = 0`, new pose
`g = 90 deg, c = 0`) the differential gantry angle is `d = -pi/2`, the
emitted 4x4's translation column is (0, 0, 0), and the head point
(100, 0, 0) maps to (0, 100, 0) - the gantry rotation moves it onto the
y axis, not the z axis. -/
theorem C6_regression_amended :
    gantryD (-1) 0 (π/2) = -(π/2) ∧
      c6Matrix.m14 = 0 ∧ c6Matrix.m24 = 0 ∧ c6Matrix.m34 = 0 ∧
      applyMat c6Matrix ⟨100, 0, 0⟩ = (⟨0, 100, 0⟩ : Vec3) := by
  refine ⟨by rw [gantryD]; ring, ?_, ?_, ?_, c6Matrix_apply⟩ <;>
    simp [c6Matrix, headDiffMatrix, gantryD, Real.cos_pi, Real.sin_pi,
      Real.cos_pi_div_two, Real.sin_pi_div_two]

/-! ### Lemmas about the input sanity check -/

/-- The per-field check succeeds exactly for a present, in-bounds value. -/
theorem clampField_ok (v : Option ℝ) (lo hi : ℝ) :
    (clampField v lo hi).2 = true ↔ inRange v lo hi := by
  cases v with
  | none =>
    simp [clampField, clampLow, inRange]
  | some x =>
    by_cases h1 : x < lo
    · rw [clampField, clampLow]
      rw [if_pos h1]
      simp only [clampHigh, inRange, Bool.false_and]
      constructor
      · intro h; exact absurd h (by simp)
      · rintro ⟨y, hy, hlo, -⟩
        rw [Option.some.injEq] at hy
        subst hy
        exact absurd h1 (not_lt.2 hlo)
    · rw [clampField, clampLow]
      rw [if_neg h1]
      by_cases h2 : x > hi
      · rw [clampHigh, if_pos h2]
        simp only [Bool.and_false, inRange]
        constructor
        · intro h; exact absurd h (by simp)
        · rintro ⟨y, hy, -, hhi⟩
          rw [Option.some.injEq] at hy
          subst hy
          exact absurd h2 (not_lt.2 hhi)
      · rw [clampHigh, if_neg h2]
        simp only [Bool.and_true, inRange]
        exact ⟨fun _ => ⟨x, rfl, not_lt.1 h1, not_lt.1 h2⟩, fun _ => trivial⟩

/-- A value above the upper bound is clamped to that bound and fails the
check. -/
theorem clampField_above (x lo hi : ℝ) (hhi : hi < x) (hlo : lo ≤ hi) :
    clampField (some x) lo hi = (hi, false) := by
  rw [clampField, clampLow, if_neg (not_lt.2 (hlo.trans hhi.le)), clampHigh,
    if_pos hhi]
  simp

/-- The pose is handed to `transform_models` exactly when the sanity flag
`ok` survived all bound checks. -/
theorem appliedPose_ne_none (extraction : Bool) (inp : TextInput) :
    appliedPose extraction inp ≠ none ↔
      (transformCheck extraction inp).ok = true := by
  cases h : (transformCheck extraction inp).ok <;>
    simp [appliedPose, h]

/-- Counterexample to claim C7 as stated: in `c7State` only the
treatment-head mesh "Gantry" moved and the pair encoding is unchanged,
yet the enabled pair ("Couch", "Couch") - both of whose members stayed
put - is re-dispatched to the oracle. -/
theorem C7_selective_counterexample :
    (0, (⟨"Couch", "Couch", true⟩ : ColRowM)) ∈ dispatchedPairs c7State ∧
      "Couch" ∉ movedParts c7State ∧
      c7State.coltag = c7State.oldcoltag := by
  have hg : headGuard c7State := by
    rw [headGuard]
    right; left
    show |(1 : ℝ) - 0| > 0
    norm_num
  have hc : ¬couchGuard c7State := by
    rw [couchGuard]
    simp [c7State]
  have hmoved : movedProp c7State := by
    rw [movedProp]
    left
    rw [transformEmissions, headEmissions, if_pos hg]
    simp [c7State]
  have hsent : ¬sentinelEmpty c7State := by
    rw [sentinelEmpty]
    decide
  refine ⟨?_, ?_, rfl⟩
  · rw [dispatchedPairs, if_pos hmoved, if_neg hsent]
    decide
  · rw [movedParts, transformEmissions, headEmissions, if_pos hg,
      couchEmissions, if_neg hc]
    simp [c7State, scissorEmissions]

/-- Claim C7, amended: re-dispatch is all-or-nothing per pose transition,
not per pair.  A pair is dispatched exactly when some mesh moved in this
transition or the pair encoding changed, the encoding is not mistaken for
the all-empty sentinel, and the pair itself is an enabled row whose two
names are known ROIs - regardless of whether its own members moved. -/
theorem C7_dispatch_characterization (st : State) (i : ℕ) (r : ColRowM) :
    (i, r) ∈ dispatchedPairs st ↔
      (transformEmissions st ≠ [] ∨ st.coltag ≠ st.oldcoltag) ∧
      coltagLen st.coltag ≠ st.maxColThreads * 6 ∧
      (i, r) ∈ st.coltag.enum ∧
      r.roia ∈ st.roiNames ∧ r.roib ∈ st.roiNames ∧ r.enabled = true := by
  rw [dispatchedPairs]
  by_cases hm : movedProp st
  · rw [if_pos hm]
    rw [movedProp] at hm
    by_cases hs : sentinelEmpty st
    · rw [if_pos hs]
      rw [sentinelEmpty] at hs
      simp only [List.not_mem_nil, false_iff]
      rintro ⟨-, hne, -⟩
      exact hne hs
    · rw [if_neg hs]
      rw [sentinelEmpty] at hs
      rw [List.mem_filter]
      simp only [validRow, Bool.and_eq_true, decide_eq_true_eq]
      constructor
      · rintro ⟨hmem, ⟨ha, hb⟩, he⟩
        exact ⟨hm, hs, hmem, ha, hb, he⟩
      · rintro ⟨-, -, hmem, ha, hb, he⟩
        exact ⟨hmem, ⟨ha, hb⟩, he⟩
  · rw [if_neg hm]
    rw [movedProp] at hm
    simp only [List.not_mem_nil, false_iff]
    rintro ⟨h1, -⟩
    exact hm h1

/-- Counterexample to claim C8 as stated: a beam-angle request of 400 deg
is clamped to the 360 deg bound, but the transition is rejected
(`ok = False`) and no pose is applied to the geometry, instead of being
applied with clamping. -/
theorem C8_clamp_counterexample :
    (transformCheck false c8Input).b = 360 ∧
      (transformCheck false c8Input).ok = false ∧
      appliedPose false c8Input = none := by
  have hb : clampField (some (400 : ℝ)) 0 360 = (360, false) :=
    clampField_above 400 0 360 (by norm_num) (by norm_num)
  have h0 : ∀ lo hi : ℝ, lo ≤ 0 → 0 ≤ hi →
      clampField (some (0 : ℝ)) lo hi = (0, true) := by
    intro lo hi hlo hhi
    rw [clampField, clampLow, if_neg (not_lt.2 hlo), clampHigh,
      if_neg (not_lt.2 hhi)]
    simp
  have hck : transformCheck false c8Input =
      ⟨360, 0, 0, 0, 0, 0, false⟩ := by
    rw [transformCheck]
    simp only [c8Input, hb, h0 (-90) 90 (by norm_num) (by norm_num),
      h0 (-100) 100 (by norm_num) (by norm_num),
      h0 (-250) 250 (by norm_num) (by norm_num),
      h0 (-500) 500 (by norm_num) (by norm_num),
      Bool.false_eq_true, if_false]
    rfl
  refine ⟨by rw [hck], by rw [hck], ?_⟩
  rw [appliedPose, hck]
  rfl

/-- Claim C8, amended: an out-of-range pose request is clamped to the
violated bound in the input field, but the transformation is then skipped
for that invocation rather than applied: the pose reaches the geometry
exactly when every input is present and within its declared bounds. -/
theorem C8_clamp_skips (extraction : Bool) (inp : TextInput) :
    (appliedPose extraction inp ≠ none ↔
      (inRange inp.b 0 360 ∧ inRange inp.c (-90) 90 ∧
       inRange inp.x (-100) 100 ∧ inRange inp.y (-250) 250 ∧
       inRange inp.z (-500) 500 ∧
       (extraction = true → inRange inp.e 0 800))) ∧
    ∀ bv : ℝ, inp.b = some bv → 360 < bv →
      (transformCheck extraction inp).b = 360 ∧
        appliedPose extraction inp = none := by
  have hok : (transformCheck extraction inp).ok = true ↔
      (inRange inp.b 0 360 ∧ inRange inp.c (-90) 90 ∧
       inRange inp.x (-100) 100 ∧ inRange inp.y (-250) 250 ∧
       inRange inp.z (-500) 500 ∧
       (extraction = true → inRange inp.e 0 800)) := by
    cases extraction
    · simp only [transformCheck, Bool.false_eq_true, if_false,
        Bool.and_eq_true, Bool.and_true, clampField_ok]
      simp [and_assoc]
    · simp only [transformCheck, if_true, Bool.and_eq_true, clampField_ok]
      simp [and_assoc]
  constructor
  · rw [appliedPose_ne_none, hok]
  · intro bv hbv habove
    have hb : clampField inp.b 0 360 = (360, false) := by
      rw [hbv]
      exact clampField_above bv 0 360 habove (by norm_num)
    constructor
    · show (transformCheck extraction inp).b = 360
      rw [transformCheck]
      simp only [hb]
    · rw [appliedPose]
      have : (transformCheck extraction inp).ok = false := by
        rw [transformCheck]
        simp only [hb, Bool.false_and]
      rw [this]
      rfl

/-- Witness for the hypotheses of the amended C8, applying it to the
beam-angle request of 400 deg: the check result is clamped to 360 and
nothing is applied. -/
theorem C8_clamp_skips_witness :
    (transformCheck false c8Input).b = 360 ∧
      appliedPose false c8Input = none :=
  (C8_clamp_skips false c8Input).2 400 rfl (by norm_num)

/-- Evaluation of the dispatch logic at `c9State`: the single-character
pair ("A", "B") is enabled and both names are known ROIs, `moved` is set
(the pair encoding just changed), yet the encoding's length hits the
`len(coltag) == maxColThreads * 6` nothing-selected test, so the code
clears the row and dispatches nothing - contradicting the comment at
line 1004 and the claimed dispatch policy. -/
theorem C9_sentinel_eval :
    validRow c9State.roiNames ⟨"A", "B", true⟩ = true ∧
      movedProp c9State ∧
      dispatchedPairs c9State = [] ∧
      rowActions c9State = [RowAction.clear] := by
  have hmoved : movedProp c9State := by
    rw [movedProp]
    right
    decide
  have hsent : sentinelEmpty c9State := by
    rw [sentinelEmpty]
    decide
  refine ⟨by decide, hmoved, ?_, ?_⟩
  · rw [dispatchedPairs, if_pos hmoved, if_pos hsent]
  · rw [rowActions, if_pos hmoved, if_pos hsent]
    rfl

end RadCollision
